import Mathlib

/-!
Shallow embedding of the noisy_float crate core (src/lib.rs and
src/float_impl.rs): the NoisyFloat wrapper, the FloatChecker policy
contract, and the arithmetic, ordering and float-capability surface.

Modelling conventions:
- a Rust panic is modelled by an Option result, with none meaning the
  operation panicked; a function that cannot panic keeps a plain result;
- the underlying float type F of the Rust generic is abstract here: a
  FloatOps bundle supplies the raw operations that the num_traits Float
  bound supplies in the source;
- the FloatChecker trait has a pure predicate check and an assert that,
  per its documentation, calls either a build-independent assertion or a
  debug-only assertion on check; a checker is therefore a predicate
  together with a flag assertActive saying whether its assertion is
  compiled in (true for an always-on assertion or an instrumented build,
  false for a debug-only assertion in an optimized build).
-/

namespace NoisyFloatSpec

/-- Mirror of std::num::FpCategory, the result type of classify. -/
inductive FpCat
| nan
| infinite
| zero
| subnormal
| normal

deriving instance DecidableEq for FpCat

/-- Bundle of the raw float operations that the num_traits Float bound
provides for the underlying type F in the source. The wrapper code never
inspects F; it only forwards to these operations. -/
structure FloatOps (F : Type) where
  add : F → F → F
  sub : F → F → F
  mul : F → F → F
  div : F → F → F
  rem : F → F → F
  neg : F → F
  zero : F
  one : F
  default : F
  infinity : F
  neg_infinity : F
  neg_zero : F
  min_value : F
  min_positive_value : F
  max_value : F
  lt : F → F → Bool
  le : F → F → Bool
  gt : F → F → Bool
  ge : F → F → Bool
  beq : F → F → Bool
  cmpOpt : F → F → Option Ordering
  is_nan : F → Bool
  is_infinite : F → Bool
  is_finite : F → Bool
  is_normal : F → Bool
  classify : F → FpCat
  is_sign_positive : F → Bool
  is_sign_negative : F → Bool
  integer_decode : F → Nat × Int × Int
  floor : F → F
  ceil : F → F
  round : F → F
  trunc : F → F
  fract : F → F
  abs : F → F
  signum : F → F
  mul_add : F → F → F → F
  recip : F → F
  powi : F → Int → F
  powf : F → F → F
  sqrt : F → F
  cbrt : F → F
  exp : F → F
  exp2 : F → F
  exp_m1 : F → F
  ln : F → F
  log : F → F → F
  log2 : F → F
  log10 : F → F
  ln_1p : F → F
  sin : F → F
  cos : F → F
  tan : F → F
  asin : F → F
  acos : F → F
  atan : F → F
  atan2 : F → F → F
  sin_cos : F → F × F
  sinh : F → F
  cosh : F → F
  tanh : F → F
  asinh : F → F
  acosh : F → F
  atanh : F → F
  max : F → F → F
  min : F → F → F
  abs_sub : F → F → F
  hypot : F → F → F
  to_degrees : F → F
  to_radians : F → F

/-- Model of the FloatChecker trait: the pure predicate check, plus a
flag recording whether the assert of this policy is compiled in. The
trait documentation requires assert to be either an always-on assertion
or a debug-only assertion on check, so this flag covers exactly the
allowed implementations. -/
structure FloatChecker (F : Type) where
  check : F → Bool
  assertActive : Bool

/-- Model of C::assert(value): panics (none) exactly when the assertion
is compiled in and the predicate rejects the value. -/
def FloatChecker.assert {F : Type} (C : FloatChecker F) (v : F) : Option Unit :=
  if C.assertActive && !(C.check v) then none else some ()

/-- Model of the NoisyFloat struct from src/lib.rs: a wrapper holding one
raw float value. The checker is a phantom type parameter in the source,
so here the checker is passed to each operation instead. -/
structure NoisyFloat (F : Type) where
  value : F

deriving instance DecidableEq for NoisyFloat

namespace NoisyFloat

variable {F : Type}

/-- Source: fn unchecked_new(value) constructs the wrapper with no check. -/
def unchecked_new (v : F) : NoisyFloat F :=
  { value := v }

/-- Source: pub fn new(value) runs C::assert(value), then unchecked_new. -/
def new (C : FloatChecker F) (v : F) : Option (NoisyFloat F) :=
  (C.assert v).map (fun _ => unchecked_new v)

/-- Source: pub fn try_new(value) tests C::check(value) and returns
Some of the wrapped value, or None; it never calls C::assert, and the
code has no panicking path, so its result type is the plain Option of
the source. -/
def try_new (C : FloatChecker F) (v : F) : Option (NoisyFloat F) :=
  if C.check v then some { value := v } else none

/-- Source: pub fn raw(self) returns the underlying value. -/
def raw (x : NoisyFloat F) : F :=
  x.value

/-- Source: Clone::clone returns Self::unchecked_new(self.value). -/
def clone (x : NoisyFloat F) : NoisyFloat F :=
  unchecked_new x.value

/-- Source: Default::default() is Self::new(F::default()). -/
def defaultNF (ops : FloatOps F) (C : FloatChecker F) : Option (NoisyFloat F) :=
  new C ops.default

/-- Source: Zero::zero() is Self::unchecked_new(F::zero()). -/
def zero (ops : FloatOps F) : NoisyFloat F :=
  unchecked_new ops.zero

/-- Source: One::one() is Self::unchecked_new(F::one()). -/
def one (ops : FloatOps F) : NoisyFloat F :=
  unchecked_new ops.one

end NoisyFloat

namespace NoisyFloat

variable {F : Type}

/-- Source: Add::add is Self::new(self.value.add(rhs.value)). -/
def add (ops : FloatOps F) (C : FloatChecker F) (a b : NoisyFloat F) : Option (NoisyFloat F) :=
  new C (ops.add a.value b.value)

/-- Source: Sub::sub is Self::new(self.value.sub(rhs.value)). -/
def sub (ops : FloatOps F) (C : FloatChecker F) (a b : NoisyFloat F) : Option (NoisyFloat F) :=
  new C (ops.sub a.value b.value)

/-- Source: Mul::mul is Self::new(self.value.mul(rhs.value)). -/
def mul (ops : FloatOps F) (C : FloatChecker F) (a b : NoisyFloat F) : Option (NoisyFloat F) :=
  new C (ops.mul a.value b.value)

/-- Source: Div::div is Self::new(self.value.div(rhs.value)). -/
def div (ops : FloatOps F) (C : FloatChecker F) (a b : NoisyFloat F) : Option (NoisyFloat F) :=
  new C (ops.div a.value b.value)

/-- Source: Rem::rem is Self::new(self.value.rem(rhs.value)). -/
def rem (ops : FloatOps F) (C : FloatChecker F) (a b : NoisyFloat F) : Option (NoisyFloat F) :=
  new C (ops.rem a.value b.value)

/-- Source: Neg::neg is Self::new(self.value.neg()). -/
def neg (ops : FloatOps F) (C : FloatChecker F) (a : NoisyFloat F) : Option (NoisyFloat F) :=
  new C (ops.neg a.value)

/-- Source: AddAssign::add_assign mutates self.value in place via the
raw addition, then runs C::assert on the new state (not Self::new). -/
def add_assign (ops : FloatOps F) (C : FloatChecker F) (a b : NoisyFloat F) : Option (NoisyFloat F) :=
  let v := ops.add a.value b.value
  (C.assert v).map (fun _ => { value := v })

/-- Source: SubAssign::sub_assign mutates in place, then C::assert. -/
def sub_assign (ops : FloatOps F) (C : FloatChecker F) (a b : NoisyFloat F) : Option (NoisyFloat F) :=
  let v := ops.sub a.value b.value
  (C.assert v).map (fun _ => { value := v })

/-- Source: MulAssign::mul_assign mutates in place, then C::assert. -/
def mul_assign (ops : FloatOps F) (C : FloatChecker F) (a b : NoisyFloat F) : Option (NoisyFloat F) :=
  let v := ops.mul a.value b.value
  (C.assert v).map (fun _ => { value := v })

/-- Source: DivAssign::div_assign mutates in place, then C::assert. -/
def div_assign (ops : FloatOps F) (C : FloatChecker F) (a b : NoisyFloat F) : Option (NoisyFloat F) :=
  let v := ops.div a.value b.value
  (C.assert v).map (fun _ => { value := v })

/-- Source: RemAssign::rem_assign mutates in place, then C::assert. -/
def rem_assign (ops : FloatOps F) (C : FloatChecker F) (a b : NoisyFloat F) : Option (NoisyFloat F) :=
  let v := ops.rem a.value b.value
  (C.assert v).map (fun _ => { value := v })

/-- Source: PartialEq::eq delegates to self.value.eq(other.value). -/
def eq (ops : FloatOps F) (a b : NoisyFloat F) : Bool :=
  ops.beq a.value b.value

/-- Source: PartialOrd::lt delegates to self.value.lt(other.value). -/
def lt (ops : FloatOps F) (a b : NoisyFloat F) : Bool :=
  ops.lt a.value b.value

/-- Source: PartialOrd::le delegates to self.value.le(other.value). -/
def le (ops : FloatOps F) (a b : NoisyFloat F) : Bool :=
  ops.le a.value b.value

/-- Source: PartialOrd::gt delegates to self.value.gt(other.value). -/
def gt (ops : FloatOps F) (a b : NoisyFloat F) : Bool :=
  ops.gt a.value b.value

/-- Source: PartialOrd::ge delegates to self.value.ge(other.value). -/
def ge (ops : FloatOps F) (a b : NoisyFloat F) : Bool :=
  ops.ge a.value b.value

/-- Source: PartialOrd delegates partial comparison to the raw values. -/
def cmpOpt (ops : FloatOps F) (a b : NoisyFloat F) : Option Ordering :=
  ops.cmpOpt a.value b.value

/-- Source: Ord::cmp returns Less if self.value is strictly below,
Equal if the raw values compare equal, and Greater otherwise. -/
def cmp (ops : FloatOps F) (a b : NoisyFloat F) : Ordering :=
  if ops.lt a.value b.value then .lt
  else if ops.beq a.value b.value then .eq
  else .gt

/-- Source: Float::nan() is an unconditional panic. -/
def nan (_C : FloatChecker F) : Option (NoisyFloat F) :=
  none

/-- Source: Float::infinity() is Self::new(F::infinity()). -/
def infinity (ops : FloatOps F) (C : FloatChecker F) : Option (NoisyFloat F) :=
  new C ops.infinity

/-- Source: Float::neg_infinity() is Self::new(F::neg_infinity()). -/
def neg_infinity (ops : FloatOps F) (C : FloatChecker F) : Option (NoisyFloat F) :=
  new C ops.neg_infinity

/-- Source: Float::neg_zero() is Self::new(F::neg_zero()). -/
def neg_zero (ops : FloatOps F) (C : FloatChecker F) : Option (NoisyFloat F) :=
  new C ops.neg_zero

/-- Source: Float::min_value() is Self::new(F::min_value()). -/
def min_value (ops : FloatOps F) (C : FloatChecker F) : Option (NoisyFloat F) :=
  new C ops.min_value

/-- Source: Float::min_positive_value() forwards through Self::new. -/
def min_positive_value (ops : FloatOps F) (C : FloatChecker F) : Option (NoisyFloat F) :=
  new C ops.min_positive_value

/-- Source: Float::max_value() is Self::new(F::max_value()). -/
def max_value (ops : FloatOps F) (C : FloatChecker F) : Option (NoisyFloat F) :=
  new C ops.max_value

/-- Source: Float::is_nan(self) is the literal constant false. -/
def is_nan (_x : NoisyFloat F) : Bool :=
  false

/-- Source: Float::is_infinite delegates to the raw value. -/
def is_infinite (ops : FloatOps F) (x : NoisyFloat F) : Bool :=
  ops.is_infinite x.value

/-- Source: Float::is_finite delegates to the raw value. -/
def is_finite (ops : FloatOps F) (x : NoisyFloat F) : Bool :=
  ops.is_finite x.value

/-- Source: Float::is_normal delegates to the raw value. -/
def is_normal (ops : FloatOps F) (x : NoisyFloat F) : Bool :=
  ops.is_normal x.value

/-- Source: Float::classify delegates to the raw value. -/
def classify (ops : FloatOps F) (x : NoisyFloat F) : FpCat :=
  ops.classify x.value

/-- Source: Float::is_sign_positive delegates to the raw value. -/
def is_sign_positive (ops : FloatOps F) (x : NoisyFloat F) : Bool :=
  ops.is_sign_positive x.value

/-- Source: Float::is_sign_negative delegates to the raw value. -/
def is_sign_negative (ops : FloatOps F) (x : NoisyFloat F) : Bool :=
  ops.is_sign_negative x.value

/-- Source: Float::integer_decode delegates to the raw value. -/
def integer_decode (ops : FloatOps F) (x : NoisyFloat F) : Nat × Int × Int :=
  ops.integer_decode x.value

/-- Source: Float::floor is Self::new(self.value.floor()). -/
def floor (ops : FloatOps F) (C : FloatChecker F) (x : NoisyFloat F) : Option (NoisyFloat F) :=
  new C (ops.floor x.value)

/-- Source: Float::ceil is Self::new(self.value.ceil()). -/
def ceil (ops : FloatOps F) (C : FloatChecker F) (x : NoisyFloat F) : Option (NoisyFloat F) :=
  new C (ops.ceil x.value)

/-- Source: Float::round is Self::new(self.value.round()). -/
def round (ops : FloatOps F) (C : FloatChecker F) (x : NoisyFloat F) : Option (NoisyFloat F) :=
  new C (ops.round x.value)

/-- Source: Float::trunc is Self::new(self.value.trunc()). -/
def trunc (ops : FloatOps F) (C : FloatChecker F) (x : NoisyFloat F) : Option (NoisyFloat F) :=
  new C (ops.trunc x.value)

/-- Source: Float::fract is Self::new(self.value.fract()). -/
def fract (ops : FloatOps F) (C : FloatChecker F) (x : NoisyFloat F) : Option (NoisyFloat F) :=
  new C (ops.fract x.value)

/-- Source: Float::abs is Self::new(self.value.abs()). -/
def abs (ops : FloatOps F) (C : FloatChecker F) (x : NoisyFloat F) : Option (NoisyFloat F) :=
  new C (ops.abs x.value)

/-- Source: Float::signum is Self::new(self.value.signum()). -/
def signum (ops : FloatOps F) (C : FloatChecker F) (x : NoisyFloat F) : Option (NoisyFloat F) :=
  new C (ops.signum x.value)

/-- Source: Float::mul_add is Self::new(self.value.mul_add(a, b)). -/
def mul_add (ops : FloatOps F) (C : FloatChecker F) (x a b : NoisyFloat F) : Option (NoisyFloat F) :=
  new C (ops.mul_add x.value a.value b.value)

/-- Source: Float::recip is Self::new(self.value.recip()). -/
def recip (ops : FloatOps F) (C : FloatChecker F) (x : NoisyFloat F) : Option (NoisyFloat F) :=
  new C (ops.recip x.value)

/-- Source: Float::powi is Self::new(self.value.powi(n)). -/
def powi (ops : FloatOps F) (C : FloatChecker F) (x : NoisyFloat F) (n : Int) : Option (NoisyFloat F) :=
  new C (ops.powi x.value n)

/-- Source: Float::powf is Self::new(self.value.powf(n.value)). -/
def powf (ops : FloatOps F) (C : FloatChecker F) (x n : NoisyFloat F) : Option (NoisyFloat F) :=
  new C (ops.powf x.value n.value)

/-- Source: Float::sqrt is Self::new(self.value.sqrt()). -/
def sqrt (ops : FloatOps F) (C : FloatChecker F) (x : NoisyFloat F) : Option (NoisyFloat F) :=
  new C (ops.sqrt x.value)

/-- Source: Float::cbrt is Self::new(self.value.cbrt()). -/
def cbrt (ops : FloatOps F) (C : FloatChecker F) (x : NoisyFloat F) : Option (NoisyFloat F) :=
  new C (ops.cbrt x.value)

/-- Source: Float::exp is Self::new(self.value.exp()). -/
def exp (ops : FloatOps F) (C : FloatChecker F) (x : NoisyFloat F) : Option (NoisyFloat F) :=
  new C (ops.exp x.value)

/-- Source: Float::exp2 is Self::new(self.value.exp2()). -/
def exp2 (ops : FloatOps F) (C : FloatChecker F) (x : NoisyFloat F) : Option (NoisyFloat F) :=
  new C (ops.exp2 x.value)

/-- Source: Float::exp_m1 is Self::new(self.value.exp_m1()). -/
def exp_m1 (ops : FloatOps F) (C : FloatChecker F) (x : NoisyFloat F) : Option (NoisyFloat F) :=
  new C (ops.exp_m1 x.value)

/-- Source: Float::ln is Self::new(self.value.ln()). -/
def ln (ops : FloatOps F) (C : FloatChecker F) (x : NoisyFloat F) : Option (NoisyFloat F) :=
  new C (ops.ln x.value)

/-- Source: Float::log is Self::new(self.value.log(base.value)). -/
def log (ops : FloatOps F) (C : FloatChecker F) (x base : NoisyFloat F) : Option (NoisyFloat F) :=
  new C (ops.log x.value base.value)

/-- Source: Float::log2 is Self::new(self.value.log2()). -/
def log2 (ops : FloatOps F) (C : FloatChecker F) (x : NoisyFloat F) : Option (NoisyFloat F) :=
  new C (ops.log2 x.value)

/-- Source: Float::log10 is Self::new(self.value.log10()). -/
def log10 (ops : FloatOps F) (C : FloatChecker F) (x : NoisyFloat F) : Option (NoisyFloat F) :=
  new C (ops.log10 x.value)

/-- Source: Float::ln_1p is Self::new(self.value.ln_1p()). -/
def ln_1p (ops : FloatOps F) (C : FloatChecker F) (x : NoisyFloat F) : Option (NoisyFloat F) :=
  new C (ops.ln_1p x.value)

/-- Source: Float::sin is Self::new(self.value.sin()). -/
def sin (ops : FloatOps F) (C : FloatChecker F) (x : NoisyFloat F) : Option (NoisyFloat F) :=
  new C (ops.sin x.value)

/-- Source: Float::cos is Self::new(self.value.cos()). -/
def cos (ops : FloatOps F) (C : FloatChecker F) (x : NoisyFloat F) : Option (NoisyFloat F) :=
  new C (ops.cos x.value)

/-- Source: Float::tan is Self::new(self.value.tan()). -/
def tan (ops : FloatOps F) (C : FloatChecker F) (x : NoisyFloat F) : Option (NoisyFloat F) :=
  new C (ops.tan x.value)

/-- Source: Float::asin is Self::new(self.value.asin()). -/
def asin (ops : FloatOps F) (C : FloatChecker F) (x : NoisyFloat F) : Option (NoisyFloat F) :=
  new C (ops.asin x.value)

/-- Source: Float::acos is Self::new(self.value.acos()). -/
def acos (ops : FloatOps F) (C : FloatChecker F) (x : NoisyFloat F) : Option (NoisyFloat F) :=
  new C (ops.acos x.value)

/-- Source: Float::atan is Self::new(self.value.atan()). -/
def atan (ops : FloatOps F) (C : FloatChecker F) (x : NoisyFloat F) : Option (NoisyFloat F) :=
  new C (ops.atan x.value)

/-- Source: Float::atan2 is Self::new(self.value.atan2(other.value)). -/
def atan2 (ops : FloatOps F) (C : FloatChecker F) (x other : NoisyFloat F) : Option (NoisyFloat F) :=
  new C (ops.atan2 x.value other.value)

/-- Source: Float::sin_cos computes the raw pair, then applies Self::new
to the sine component and then to the cosine component. -/
def sin_cos (ops : FloatOps F) (C : FloatChecker F) (x : NoisyFloat F) : Option (NoisyFloat F × NoisyFloat F) :=
  (new C (ops.sin_cos x.value).1).bind (fun a =>
    (new C (ops.sin_cos x.value).2).map (fun b => (a, b)))

/-- Source: Float::sinh is Self::new(self.value.sinh()). -/
def sinh (ops : FloatOps F) (C : FloatChecker F) (x : NoisyFloat F) : Option (NoisyFloat F) :=
  new C (ops.sinh x.value)

/-- Source: Float::cosh is Self::new(self.value.cosh()). -/
def cosh (ops : FloatOps F) (C : FloatChecker F) (x : NoisyFloat F) : Option (NoisyFloat F) :=
  new C (ops.cosh x.value)

/-- Source: Float::tanh is Self::new(self.value.tanh()). -/
def tanh (ops : FloatOps F) (C : FloatChecker F) (x : NoisyFloat F) : Option (NoisyFloat F) :=
  new C (ops.tanh x.value)

/-- Source: Float::asinh is Self::new(self.value.asinh()). -/
def asinh (ops : FloatOps F) (C : FloatChecker F) (x : NoisyFloat F) : Option (NoisyFloat F) :=
  new C (ops.asinh x.value)

/-- Source: Float::acosh is Self::new(self.value.acosh()). -/
def acosh (ops : FloatOps F) (C : FloatChecker F) (x : NoisyFloat F) : Option (NoisyFloat F) :=
  new C (ops.acosh x.value)

/-- Source: Float::atanh is Self::new(self.value.atanh()). -/
def atanh (ops : FloatOps F) (C : FloatChecker F) (x : NoisyFloat F) : Option (NoisyFloat F) :=
  new C (ops.atanh x.value)

/-- Source: Float::max is Self::new(self.value.max(other.value)). -/
def max (ops : FloatOps F) (C : FloatChecker F) (x other : NoisyFloat F) : Option (NoisyFloat F) :=
  new C (ops.max x.value other.value)

/-- Source: Float::min is Self::new(self.value.min(other.value)). -/
def min (ops : FloatOps F) (C : FloatChecker F) (x other : NoisyFloat F) : Option (NoisyFloat F) :=
  new C (ops.min x.value other.value)

/-- Source: Float::abs_sub is Self::new(self.value.abs_sub(other.value)). -/
def abs_sub (ops : FloatOps F) (C : FloatChecker F) (x other : NoisyFloat F) : Option (NoisyFloat F) :=
  new C (ops.abs_sub x.value other.value)

/-- Source: Float::hypot is Self::new(self.value.hypot(other.value)). -/
def hypot (ops : FloatOps F) (C : FloatChecker F) (x other : NoisyFloat F) : Option (NoisyFloat F) :=
  new C (ops.hypot x.value other.value)

/-- Source: Float::to_degrees is Self::new(self.value.to_degrees()). -/
def to_degrees (ops : FloatOps F) (C : FloatChecker F) (x : NoisyFloat F) : Option (NoisyFloat F) :=
  new C (ops.to_degrees x.value)

/-- Source: Float::to_radians is Self::new(self.value.to_radians()). -/
def to_radians (ops : FloatOps F) (C : FloatChecker F) (x : NoisyFloat F) : Option (NoisyFloat F) :=
  new C (ops.to_radians x.value)

end NoisyFloat

/-- Small concrete model of a float type, used to instantiate the
generic development at decidable inputs: a NaN element together with a
linearly ordered fragment minus-one, zero, one, infinity. -/
inductive MiniF
| nan
| neg
| zero
| one
| inf

deriving instance DecidableEq for MiniF

deriving instance Fintype for MiniF

namespace MiniF

/-- Rank of the ordered fragment; the NaN element is never compared. -/
def rank : MiniF → Nat
| .nan => 0
| .neg => 1
| .zero => 2
| .one => 3
| .inf => 4

/-- Integer encoding of the ordered fragment. -/
def encode : MiniF → Int
| .nan => 0
| .neg => -1
| .zero => 0
| .one => 1
| .inf => 10

/-- Saturating decoding back into the model. -/
def decode (n : Int) : MiniF :=
  if n ≤ -1 then .neg else if n = 0 then .zero else if n = 1 then .one else .inf

/-- Model addition: NaN absorbs, otherwise saturating integer addition. -/
def mAdd (x y : MiniF) : MiniF :=
  if x = .nan ∨ y = .nan then .nan else decode (encode x + encode y)

/-- Model division: NaN absorbs and division by zero gives NaN,
division by infinity gives zero, otherwise saturating integer division. -/
def mDiv (x y : MiniF) : MiniF :=
  if x = .nan ∨ y = .nan ∨ y = .zero then .nan
  else if y = .inf then .zero
  else decode (encode x / encode y)

/-- Model strict order: false whenever NaN is involved. -/
def mLt (x y : MiniF) : Bool :=
  decide (x ≠ .nan ∧ y ≠ .nan ∧ rank x < rank y)

/-- Model equality test: NaN compares unequal to everything, itself
included, as with raw floats. -/
def mBeq (x y : MiniF) : Bool :=
  decide (x ≠ .nan ∧ x = y)

end MiniF

/-- FloatOps instance over the MiniF model. Operations that no theorem
constrains are filled with simple total functions. -/
def miniOps : FloatOps MiniF :=
  { add := MiniF.mAdd
    sub := fun x y => MiniF.mAdd x (MiniF.decode (-(MiniF.encode y)))
    mul := fun x y => if x = .nan ∨ y = .nan then .nan else MiniF.decode (MiniF.encode x * MiniF.encode y)
    div := MiniF.mDiv
    rem := fun x y => if x = .nan ∨ y = .nan ∨ y = .zero then .nan else .zero
    neg := fun x => if x = .nan then .nan else MiniF.decode (-(MiniF.encode x))
    zero := .zero
    one := .one
    default := .zero
    infinity := .inf
    neg_infinity := .neg
    neg_zero := .zero
    min_value := .neg
    min_positive_value := .one
    max_value := .inf
    lt := MiniF.mLt
    le := fun x y => MiniF.mLt x y || MiniF.mBeq x y
    gt := fun x y => MiniF.mLt y x
    ge := fun x y => MiniF.mLt y x || MiniF.mBeq x y
    beq := MiniF.mBeq
    cmpOpt := fun x y =>
      if x = .nan ∨ y = .nan then none
      else if MiniF.rank x < MiniF.rank y then some .lt
      else if x = y then some .eq
      else some .gt
    is_nan := fun x => decide (x = .nan)
    is_infinite := fun x => decide (x = .inf)
    is_finite := fun x => decide (x ≠ .inf ∧ x ≠ .nan)
    is_normal := fun x => decide (x = .neg ∨ x = .one)
    classify := fun x =>
      if x = .nan then .nan else if x = .inf then .infinite
      else if x = .zero then .zero else .normal
    is_sign_positive := fun x => decide (x ≠ .neg)
    is_sign_negative := fun x => decide (x = .neg)
    integer_decode := fun x => (MiniF.rank x, 0, 0)
    floor := id
    ceil := id
    round := id
    trunc := id
    fract := fun _ => .zero
    abs := fun x => if x = .neg then .one else x
    signum := fun x => if x = .nan then .nan else if x = .neg then .neg else .one
    mul_add := fun x _ _ => x
    recip := fun x => MiniF.mDiv .one x
    powi := fun x _ => x
    powf := fun x _ => x
    sqrt := fun x => if x = .neg then .nan else x
    cbrt := id
    exp := fun _ => .one
    exp2 := fun _ => .one
    exp_m1 := fun _ => .zero
    ln := fun x => if x = .zero ∨ x = .neg then .nan else x
    log := fun x _ => x
    log2 := fun x => x
    log10 := fun x => x
    ln_1p := fun x => x
    sin := fun _ => .zero
    cos := fun _ => .one
    tan := fun _ => .zero
    asin := fun x => x
    acos := fun x => x
    atan := fun x => x
    atan2 := fun x _ => x
    sin_cos := fun x => (x, x)
    sinh := fun x => x
    cosh := fun _ => .one
    tanh := fun x => x
    asinh := fun x => x
    acosh := fun x => x
    atanh := fun x => x
    max := fun x y => if MiniF.mLt x y then y else x
    min := fun x y => if MiniF.mLt y x then y else x
    abs_sub := fun x _ => x
    hypot := fun x _ => x
    to_degrees := id
    to_radians := id }

/-- Strict NaN-rejecting checker over the model, with its assertion
compiled in (the shape of an always-on assertion policy). -/
def strictN : FloatChecker MiniF :=
  { check := fun v => decide (v ≠ .nan), assertActive := true }

/-- NaN-rejecting checker whose debug-only assertion is compiled out
(the shape of a debug-assert policy in an optimized build). -/
def laxN : FloatChecker MiniF :=
  { check := fun v => decide (v ≠ .nan), assertActive := false }

/-- Checker that accepts only one and infinity; in particular it rejects
the zero value while still rejecting NaN, and its assertion is active. -/
def posC : FloatChecker MiniF :=
  { check := fun v => decide (v = .one ∨ v = .inf), assertActive := true }

/-- A NoisyFloat instance observable after some public operation of the
wrapper returned normally: every constructor corresponds to one public
operation of the source (construction, arithmetic, compound assignment,
the float-capability surface, clone, default, zero and one). Operands of
an operation may be arbitrary instances; the relation is therefore a
superset of what real executions can build, except for clone, whose
input must itself be observable. -/
inductive Reachable {F : Type} (ops : FloatOps F) (C : FloatChecker F) : NoisyFloat F → Prop
| of_new (v : F) (x : NoisyFloat F) (h : NoisyFloat.new C v = some x) : Reachable ops C x
| of_try_new (v : F) (x : NoisyFloat F) (h : NoisyFloat.try_new C v = some x) : Reachable ops C x
| of_default (x : NoisyFloat F) (h : NoisyFloat.defaultNF ops C = some x) : Reachable ops C x
| of_zero : Reachable ops C (NoisyFloat.zero ops)
| of_one : Reachable ops C (NoisyFloat.one ops)
| of_clone (x : NoisyFloat F) (hx : Reachable ops C x) : Reachable ops C (NoisyFloat.clone x)
| of_add (a b x : NoisyFloat F) (h : NoisyFloat.add ops C a b = some x) : Reachable ops C x
| of_sub (a b x : NoisyFloat F) (h : NoisyFloat.sub ops C a b = some x) : Reachable ops C x
| of_mul (a b x : NoisyFloat F) (h : NoisyFloat.mul ops C a b = some x) : Reachable ops C x
| of_div (a b x : NoisyFloat F) (h : NoisyFloat.div ops C a b = some x) : Reachable ops C x
| of_rem (a b x : NoisyFloat F) (h : NoisyFloat.rem ops C a b = some x) : Reachable ops C x
| of_neg (a x : NoisyFloat F) (h : NoisyFloat.neg ops C a = some x) : Reachable ops C x
| of_add_assign (a b x : NoisyFloat F) (h : NoisyFloat.add_assign ops C a b = some x) : Reachable ops C x
| of_sub_assign (a b x : NoisyFloat F) (h : NoisyFloat.sub_assign ops C a b = some x) : Reachable ops C x
| of_mul_assign (a b x : NoisyFloat F) (h : NoisyFloat.mul_assign ops C a b = some x) : Reachable ops C x
| of_div_assign (a b x : NoisyFloat F) (h : NoisyFloat.div_assign ops C a b = some x) : Reachable ops C x
| of_rem_assign (a b x : NoisyFloat F) (h : NoisyFloat.rem_assign ops C a b = some x) : Reachable ops C x
| of_infinity (x : NoisyFloat F) (h : NoisyFloat.infinity ops C = some x) : Reachable ops C x
| of_neg_infinity (x : NoisyFloat F) (h : NoisyFloat.neg_infinity ops C = some x) : Reachable ops C x
| of_neg_zero (x : NoisyFloat F) (h : NoisyFloat.neg_zero ops C = some x) : Reachable ops C x
| of_min_value (x : NoisyFloat F) (h : NoisyFloat.min_value ops C = some x) : Reachable ops C x
| of_min_positive_value (x : NoisyFloat F) (h : NoisyFloat.min_positive_value ops C = some x) : Reachable ops C x
| of_max_value (x : NoisyFloat F) (h : NoisyFloat.max_value ops C = some x) : Reachable ops C x
| of_floor (a x : NoisyFloat F) (h : NoisyFloat.floor ops C a = some x) : Reachable ops C x
| of_ceil (a x : NoisyFloat F) (h : NoisyFloat.ceil ops C a = some x) : Reachable ops C x
| of_round (a x : NoisyFloat F) (h : NoisyFloat.round ops C a = some x) : Reachable ops C x
| of_trunc (a x : NoisyFloat F) (h : NoisyFloat.trunc ops C a = some x) : Reachable ops C x
| of_fract (a x : NoisyFloat F) (h : NoisyFloat.fract ops C a = some x) : Reachable ops C x
| of_abs (a x : NoisyFloat F) (h : NoisyFloat.abs ops C a = some x) : Reachable ops C x
| of_signum (a x : NoisyFloat F) (h : NoisyFloat.signum ops C a = some x) : Reachable ops C x
| of_mul_add (a b c x : NoisyFloat F) (h : NoisyFloat.mul_add ops C a b c = some x) : Reachable ops C x
| of_recip (a x : NoisyFloat F) (h : NoisyFloat.recip ops C a = some x) : Reachable ops C x
| of_powi (a : NoisyFloat F) (n : Int) (x : NoisyFloat F) (h : NoisyFloat.powi ops C a n = some x) : Reachable ops C x
| of_powf (a b x : NoisyFloat F) (h : NoisyFloat.powf ops C a b = some x) : Reachable ops C x
| of_sqrt (a x : NoisyFloat F) (h : NoisyFloat.sqrt ops C a = some x) : Reachable ops C x
| of_cbrt (a x : NoisyFloat F) (h : NoisyFloat.cbrt ops C a = some x) : Reachable ops C x
| of_exp (a x : NoisyFloat F) (h : NoisyFloat.exp ops C a = some x) : Reachable ops C x
| of_exp2 (a x : NoisyFloat F) (h : NoisyFloat.exp2 ops C a = some x) : Reachable ops C x
| of_exp_m1 (a x : NoisyFloat F) (h : NoisyFloat.exp_m1 ops C a = some x) : Reachable ops C x
| of_ln (a x : NoisyFloat F) (h : NoisyFloat.ln ops C a = some x) : Reachable ops C x
| of_log (a b x : NoisyFloat F) (h : NoisyFloat.log ops C a b = some x) : Reachable ops C x
| of_log2 (a x : NoisyFloat F) (h : NoisyFloat.log2 ops C a = some x) : Reachable ops C x
| of_log10 (a x : NoisyFloat F) (h : NoisyFloat.log10 ops C a = some x) : Reachable ops C x
| of_ln_1p (a x : NoisyFloat F) (h : NoisyFloat.ln_1p ops C a = some x) : Reachable ops C x
| of_sin (a x : NoisyFloat F) (h : NoisyFloat.sin ops C a = some x) : Reachable ops C x
| of_cos (a x : NoisyFloat F) (h : NoisyFloat.cos ops C a = some x) : Reachable ops C x
| of_tan (a x : NoisyFloat F) (h : NoisyFloat.tan ops C a = some x) : Reachable ops C x
| of_asin (a x : NoisyFloat F) (h : NoisyFloat.asin ops C a = some x) : Reachable ops C x
| of_acos (a x : NoisyFloat F) (h : NoisyFloat.acos ops C a = some x) : Reachable ops C x
| of_atan (a x : NoisyFloat F) (h : NoisyFloat.atan ops C a = some x) : Reachable ops C x
| of_atan2 (a b x : NoisyFloat F) (h : NoisyFloat.atan2 ops C a b = some x) : Reachable ops C x
| of_sin_cos_fst (a : NoisyFloat F) (p : NoisyFloat F × NoisyFloat F) (h : NoisyFloat.sin_cos ops C a = some p) : Reachable ops C p.1
| of_sin_cos_snd (a : NoisyFloat F) (p : NoisyFloat F × NoisyFloat F) (h : NoisyFloat.sin_cos ops C a = some p) : Reachable ops C p.2
| of_sinh (a x : NoisyFloat F) (h : NoisyFloat.sinh ops C a = some x) : Reachable ops C x
| of_cosh (a x : NoisyFloat F) (h : NoisyFloat.cosh ops C a = some x) : Reachable ops C x
| of_tanh (a x : NoisyFloat F) (h : NoisyFloat.tanh ops C a = some x) : Reachable ops C x
| of_asinh (a x : NoisyFloat F) (h : NoisyFloat.asinh ops C a = some x) : Reachable ops C x
| of_acosh (a x : NoisyFloat F) (h : NoisyFloat.acosh ops C a = some x) : Reachable ops C x
| of_atanh (a x : NoisyFloat F) (h : NoisyFloat.atanh ops C a = some x) : Reachable ops C x
| of_max (a b x : NoisyFloat F) (h : NoisyFloat.max ops C a b = some x) : Reachable ops C x
| of_min (a b x : NoisyFloat F) (h : NoisyFloat.min ops C a b = some x) : Reachable ops C x
| of_abs_sub (a b x : NoisyFloat F) (h : NoisyFloat.abs_sub ops C a b = some x) : Reachable ops C x
| of_hypot (a b x : NoisyFloat F) (h : NoisyFloat.hypot ops C a b = some x) : Reachable ops C x
| of_to_degrees (a x : NoisyFloat F) (h : NoisyFloat.to_degrees ops C a = some x) : Reachable ops C x
| of_to_radians (a x : NoisyFloat F) (h : NoisyFloat.to_radians ops C a = some x) : Reachable ops C x

/-- Bool-valued exact-one-of-three connective used to state trichotomy. -/
def exactlyOne (p q r : Bool) : Bool :=
  (p && !q && !r) || (!p && q && !r) || (!p && !q && r)

/-- The assert of a checker accepts every value its predicate accepts. -/
lemma assert_eq_some_of_check {F : Type} {C : FloatChecker F} {v : F}
    (h : C.check v = true) : C.assert v = some () := by
  unfold FloatChecker.assert
  simp [h]

/-- When the assertion is compiled in, an accepted assert means the
predicate held. -/
lemma check_of_assert_some {F : Type} {C : FloatChecker F} (hAct : C.assertActive = true)
    {v : F} (h : C.assert v = some ()) : C.check v = true := by
  cases hc : C.check v
  · exfalso
    unfold FloatChecker.assert at h
    rw [hAct, hc] at h
    simp at h
  · rfl

/-- The halting constructor succeeds on predicate-accepted values, and
returns the wrapped input. -/
lemma new_eq_some_of_check {F : Type} {C : FloatChecker F} {v : F}
    (h : C.check v = true) : NoisyFloat.new C v = some (NoisyFloat.unchecked_new v) := by
  unfold NoisyFloat.new
  rw [assert_eq_some_of_check h]
  rfl

/-- The halting constructor panics on predicate-rejected values when the
assertion is compiled in. -/
lemma new_eq_none {F : Type} {C : FloatChecker F} (hAct : C.assertActive = true)
    {v : F} (h : C.check v = false) : NoisyFloat.new C v = none := by
  unfold NoisyFloat.new FloatChecker.assert
  rw [hAct, h]
  rfl

/-- Any normal return of the halting constructor satisfies the predicate
when the assertion is compiled in. -/
lemma check_of_new_some {F : Type} {C : FloatChecker F} (hAct : C.assertActive = true)
    {v : F} {x : NoisyFloat F} (h : NoisyFloat.new C v = some x) : C.check x.value = true := by
  unfold NoisyFloat.new at h
  cases ha : C.assert v with
  | none =>
    rw [ha] at h
    simp at h
  | some u =>
    rw [ha] at h
    simp at h
    cases u
    rw [← h]
    exact check_of_assert_some hAct ha

/-- Any normal return of the fallible constructor satisfies the
predicate. -/
lemma check_of_try_new_some {F : Type} {C : FloatChecker F}
    {v : F} {x : NoisyFloat F} (h : NoisyFloat.try_new C v = some x) : C.check x.value = true := by
  unfold NoisyFloat.try_new at h
  cases hc : C.check v
  · rw [hc] at h
    simp at h
  · rw [hc] at h
    simp at h
    rw [← h]
    exact hc

/-- A mutate-then-assert result panics exactly when the assert does. -/
lemma assign_none_iff {F : Type} {C : FloatChecker F} (v : F) :
    ((C.assert v).map (fun _ => ({ value := v } : NoisyFloat F)) = none) ↔ C.assert v = none := by
  cases h : C.assert v <;> simp [h]

/-- Any normal return of a mutate-then-assert step holds the mutated
raw value. -/
lemma assign_value_of_some {F : Type} {C : FloatChecker F} {v : F} {x : NoisyFloat F}
    (h : (C.assert v).map (fun _ => ({ value := v } : NoisyFloat F)) = some x) :
    x.value = v := by
  cases ha : C.assert v
  · rw [ha] at h
    simp at h
  · rw [ha] at h
    simp at h
    rw [← h]

/-- Any normal return of a mutate-then-assert step satisfies the
predicate when the assertion is compiled in. -/
lemma check_of_assign_some {F : Type} {C : FloatChecker F} (hAct : C.assertActive = true)
    {v : F} {x : NoisyFloat F}
    (h : (C.assert v).map (fun _ => ({ value := v } : NoisyFloat F)) = some x) :
    C.check x.value = true := by
  cases ha : C.assert v with
  | none =>
    rw [ha] at h
    simp at h
  | some u =>
    rw [ha] at h
    simp at h
    cases u
    rw [← h]
    exact check_of_assert_some hAct ha

/-- Inversion for sin_cos: a normal return means both components came
from the halting constructor on the raw pair. -/
lemma sin_cos_eq_some {F : Type} {ops : FloatOps F} {C : FloatChecker F}
    {x : NoisyFloat F} {p : NoisyFloat F × NoisyFloat F}
    (h : NoisyFloat.sin_cos ops C x = some p) :
    NoisyFloat.new C (ops.sin_cos x.value).1 = some p.1
    ∧ NoisyFloat.new C (ops.sin_cos x.value).2 = some p.2 := by
  unfold NoisyFloat.sin_cos at h
  cases h1 : NoisyFloat.new C (ops.sin_cos x.value).1 with
  | none =>
    rw [h1] at h
    simp at h
  | some a =>
    cases h2 : NoisyFloat.new C (ops.sin_cos x.value).2 with
    | none =>
      rw [h1, h2] at h
      simp at h
    | some b =>
      rw [h1, h2] at h
      have hp : some (a, b) = some p := h
      have hp2 : p = (a, b) := by
        injection hp with hp3
        exact hp3.symm
      rw [hp2]
      exact ⟨rfl, rfl⟩

/-- C1 (amended): for a policy whose enforcement assertion is compiled
in and whose predicate accepts the raw zero and one values, every
NoisyFloat instance observable after any public operation returns
normally (construction via new or try_new, any arithmetic or
float-capability operation, clone, default, zero and one) satisfies the
policy predicate. The claim as literally stated fails, because zero()
and one() construct through unchecked_new and bypass the predicate. -/
theorem reachable_invariant_holds {F : Type} (ops : FloatOps F) (C : FloatChecker F)
    (hAct : C.assertActive = true)
    (hz : C.check ops.zero = true) (ho : C.check ops.one = true)
    (x : NoisyFloat F) (hx : Reachable ops C x) : C.check x.value = true := by
  induction hx with
  | of_new v x h => exact check_of_new_some hAct h
  | of_try_new v x h => exact check_of_try_new_some h
  | of_default x h => exact check_of_new_some hAct h
  | of_zero => exact hz
  | of_one => exact ho
  | of_clone x hx ih => exact ih
  | of_add a b x h => exact check_of_new_some hAct h
  | of_sub a b x h => exact check_of_new_some hAct h
  | of_mul a b x h => exact check_of_new_some hAct h
  | of_div a b x h => exact check_of_new_some hAct h
  | of_rem a b x h => exact check_of_new_some hAct h
  | of_neg a x h => exact check_of_new_some hAct h
  | of_add_assign a b x h => exact check_of_assign_some hAct h
  | of_sub_assign a b x h => exact check_of_assign_some hAct h
  | of_mul_assign a b x h => exact check_of_assign_some hAct h
  | of_div_assign a b x h => exact check_of_assign_some hAct h
  | of_rem_assign a b x h => exact check_of_assign_some hAct h
  | of_infinity x h => exact check_of_new_some hAct h
  | of_neg_infinity x h => exact check_of_new_some hAct h
  | of_neg_zero x h => exact check_of_new_some hAct h
  | of_min_value x h => exact check_of_new_some hAct h
  | of_min_positive_value x h => exact check_of_new_some hAct h
  | of_max_value x h => exact check_of_new_some hAct h
  | of_floor a x h => exact check_of_new_some hAct h
  | of_ceil a x h => exact check_of_new_some hAct h
  | of_round a x h => exact check_of_new_some hAct h
  | of_trunc a x h => exact check_of_new_some hAct h
  | of_fract a x h => exact check_of_new_some hAct h
  | of_abs a x h => exact check_of_new_some hAct h
  | of_signum a x h => exact check_of_new_some hAct h
  | of_mul_add a b c x h => exact check_of_new_some hAct h
  | of_recip a x h => exact check_of_new_some hAct h
  | of_powi a n x h => exact check_of_new_some hAct h
  | of_powf a b x h => exact check_of_new_some hAct h
  | of_sqrt a x h => exact check_of_new_some hAct h
  | of_cbrt a x h => exact check_of_new_some hAct h
  | of_exp a x h => exact check_of_new_some hAct h
  | of_exp2 a x h => exact check_of_new_some hAct h
  | of_exp_m1 a x h => exact check_of_new_some hAct h
  | of_ln a x h => exact check_of_new_some hAct h
  | of_log a b x h => exact check_of_new_some hAct h
  | of_log2 a x h => exact check_of_new_some hAct h
  | of_log10 a x h => exact check_of_new_some hAct h
  | of_ln_1p a x h => exact check_of_new_some hAct h
  | of_sin a x h => exact check_of_new_some hAct h
  | of_cos a x h => exact check_of_new_some hAct h
  | of_tan a x h => exact check_of_new_some hAct h
  | of_asin a x h => exact check_of_new_some hAct h
  | of_acos a x h => exact check_of_new_some hAct h
  | of_atan a x h => exact check_of_new_some hAct h
  | of_atan2 a b x h => exact check_of_new_some hAct h
  | of_sin_cos_fst a p h => exact check_of_new_some hAct (sin_cos_eq_some h).1
  | of_sin_cos_snd a p h => exact check_of_new_some hAct (sin_cos_eq_some h).2
  | of_sinh a x h => exact check_of_new_some hAct h
  | of_cosh a x h => exact check_of_new_some hAct h
  | of_tanh a x h => exact check_of_new_some hAct h
  | of_asinh a x h => exact check_of_new_some hAct h
  | of_acosh a x h => exact check_of_new_some hAct h
  | of_atanh a x h => exact check_of_new_some hAct h
  | of_max a b x h => exact check_of_new_some hAct h
  | of_min a b x h => exact check_of_new_some hAct h
  | of_abs_sub a b x h => exact check_of_new_some hAct h
  | of_hypot a b x h => exact check_of_new_some hAct h
  | of_to_degrees a x h => exact check_of_new_some hAct h
  | of_to_radians a x h => exact check_of_new_some hAct h

/-- C1 witness: the strict NaN-rejecting policy on the model satisfies
the amended invariant at the instance produced by one(). -/
theorem reachable_invariant_holds_witness :
    strictN.check (NoisyFloat.one miniOps).value = true :=
  reachable_invariant_holds miniOps strictN rfl (by decide) (by decide)
    (NoisyFloat.one miniOps) Reachable.of_one

/-- C1 counterexample: posC is a legal policy (its predicate rejects
NaN) whose predicate rejects the zero value; the public operation zero()
still returns normally, and the instance it returns violates the
predicate, so the claimed invariant fails as stated. -/
theorem invariant_fails_at_zero_constructor :
    Reachable miniOps posC (NoisyFloat.zero miniOps)
    ∧ posC.check (NoisyFloat.zero miniOps).value = false
    ∧ posC.check MiniF.nan = false :=
  ⟨Reachable.of_zero, by decide, by decide⟩

/-- C2 (amended): for operands whose raw values satisfy the predicate,
each binary operator and unary negation computes the raw operation on
the unwrapped values and constructs the result through the halting
constructor new: when the policy assertion is compiled in and the raw
result violates the predicate the operation panics, and whenever the raw
result satisfies the predicate the operation returns a value holding
exactly the raw result. The claim as literally stated fails, because
under a policy whose debug-only assertion is compiled out an invalid raw
result is returned without halting. -/
theorem arith_ops_halting_spec {F : Type} (ops : FloatOps F) (C : FloatChecker F)
    (a b : NoisyFloat F) (hAct : C.assertActive = true)
    (ha : C.check a.value = true) (hb : C.check b.value = true) :
    ((C.check (ops.add a.value b.value) = false → NoisyFloat.add ops C a b = none)
      ∧ (C.check (ops.add a.value b.value) = true →
          NoisyFloat.add ops C a b = some (NoisyFloat.unchecked_new (ops.add a.value b.value))))
    ∧ ((C.check (ops.sub a.value b.value) = false → NoisyFloat.sub ops C a b = none)
      ∧ (C.check (ops.sub a.value b.value) = true →
          NoisyFloat.sub ops C a b = some (NoisyFloat.unchecked_new (ops.sub a.value b.value))))
    ∧ ((C.check (ops.mul a.value b.value) = false → NoisyFloat.mul ops C a b = none)
      ∧ (C.check (ops.mul a.value b.value) = true →
          NoisyFloat.mul ops C a b = some (NoisyFloat.unchecked_new (ops.mul a.value b.value))))
    ∧ ((C.check (ops.div a.value b.value) = false → NoisyFloat.div ops C a b = none)
      ∧ (C.check (ops.div a.value b.value) = true →
          NoisyFloat.div ops C a b = some (NoisyFloat.unchecked_new (ops.div a.value b.value))))
    ∧ ((C.check (ops.rem a.value b.value) = false → NoisyFloat.rem ops C a b = none)
      ∧ (C.check (ops.rem a.value b.value) = true →
          NoisyFloat.rem ops C a b = some (NoisyFloat.unchecked_new (ops.rem a.value b.value))))
    ∧ ((C.check (ops.neg a.value) = false → NoisyFloat.neg ops C a = none)
      ∧ (C.check (ops.neg a.value) = true →
          NoisyFloat.neg ops C a = some (NoisyFloat.unchecked_new (ops.neg a.value)))) :=
  ⟨⟨fun h => new_eq_none hAct h, fun h => new_eq_some_of_check h⟩,
    ⟨fun h => new_eq_none hAct h, fun h => new_eq_some_of_check h⟩,
    ⟨fun h => new_eq_none hAct h, fun h => new_eq_some_of_check h⟩,
    ⟨fun h => new_eq_none hAct h, fun h => new_eq_some_of_check h⟩,
    ⟨fun h => new_eq_none hAct h, fun h => new_eq_some_of_check h⟩,
    ⟨fun h => new_eq_none hAct h, fun h => new_eq_some_of_check h⟩⟩

/-- C2 witness: adding one and one under the strict policy returns the
wrapper of the raw sum. -/
theorem arith_ops_halting_spec_witness :
    NoisyFloat.add miniOps strictN (NoisyFloat.unchecked_new MiniF.one)
        (NoisyFloat.unchecked_new MiniF.one)
      = some (NoisyFloat.unchecked_new (miniOps.add MiniF.one MiniF.one)) :=
  (arith_ops_halting_spec miniOps strictN (NoisyFloat.unchecked_new MiniF.one)
      (NoisyFloat.unchecked_new MiniF.one) rfl (by decide) (by decide)).1.2 (by decide)

/-- C2 counterexample: under the NaN-rejecting policy laxN, whose
debug-only assertion is compiled out, dividing the valid value zero by
the valid value zero yields the invalid raw value NaN, yet the checked
division returns normally instead of halting. -/
theorem div_invalid_without_halt :
    laxN.check MiniF.zero = true
    ∧ laxN.check (miniOps.div MiniF.zero MiniF.zero) = false
    ∧ NoisyFloat.div miniOps laxN (NoisyFloat.unchecked_new MiniF.zero)
        (NoisyFloat.unchecked_new MiniF.zero)
      = some (NoisyFloat.unchecked_new MiniF.nan) :=
  ⟨by decide, by decide, by decide⟩

/-- C3: for every raw value accepted by the policy predicate, try_new
returns Some of a wrapper whose raw() extraction is exactly the input
value. -/
theorem try_new_valid_roundtrip {F : Type} (C : FloatChecker F) (v : F)
    (h : C.check v = true) :
    NoisyFloat.try_new C v = some (NoisyFloat.unchecked_new v)
    ∧ (NoisyFloat.unchecked_new v : NoisyFloat F).raw = v := by
  constructor
  · unfold NoisyFloat.try_new
    rw [h]
    rfl
  · rfl

/-- C3 witness: the round-trip at the valid model value one. -/
theorem try_new_valid_roundtrip_witness :
    NoisyFloat.try_new strictN MiniF.one = some (NoisyFloat.unchecked_new MiniF.one)
    ∧ (NoisyFloat.unchecked_new MiniF.one : NoisyFloat MiniF).raw = MiniF.one :=
  try_new_valid_roundtrip strictN MiniF.one (by decide)

/-- C4: for every raw value rejected by the predicate, try_new returns
None, its result is unchanged whether or not the policy assertion is
compiled in (it runs only the predicate and its code has no panicking
path), while new runs C::assert on the value: new panics exactly when
the assert does, that is exactly when the assertion is compiled in, and
with a compiled-out assertion new returns the value unchecked. -/
theorem try_new_invalid_and_new_assert {F : Type} (C : FloatChecker F) (v : F)
    (h : C.check v = false) :
    NoisyFloat.try_new C v = none
    ∧ (∀ b : Bool, NoisyFloat.try_new ⟨C.check, b⟩ v = none)
    ∧ (NoisyFloat.new C v = none ↔ C.assert v = none)
    ∧ (C.assertActive = true → NoisyFloat.new C v = none)
    ∧ (C.assertActive = false → NoisyFloat.new C v = some (NoisyFloat.unchecked_new v)) := by
  refine ⟨?_, ?_, ?_, ?_, ?_⟩
  · unfold NoisyFloat.try_new
    rw [h]
    rfl
  · intro b
    unfold NoisyFloat.try_new
    rw [h]
    rfl
  · unfold NoisyFloat.new
    cases ha : C.assert v <;> simp [ha]
  · intro hAct
    exact new_eq_none hAct h
  · intro hInact
    unfold NoisyFloat.new FloatChecker.assert
    rw [hInact]
    rfl

/-- C4 witness: the strict policy rejects the NaN model value, and
try_new returns None there. -/
theorem try_new_invalid_and_new_assert_witness :
    NoisyFloat.try_new strictN MiniF.nan = none :=
  (try_new_invalid_and_new_assert strictN MiniF.nan (by decide)).1

/-- C5: under hypotheses stating that the raw comparisons behave like
the IEEE comparisons on non-NaN values (trichotomy of lt and eq,
greater-than equal to flipped less-than, transitivity, and totality of
the raw partial comparison away from NaN) and that the policy predicate
rejects NaN, the checked comparisons form a total order on valid values:
exactly one of lt, eq, gt holds, lt is transitive, Ord::cmp follows the
source tie-break rule (Less on strictly smaller raw, Equal on equal
raws, Greater otherwise), and the partial comparison is never None. -/
theorem checked_total_order {F : Type} (ops : FloatOps F) (C : FloatChecker F)
    (hNan : ∀ v, C.check v = true → ops.is_nan v = false)
    (hTri : ∀ x y, ops.is_nan x = false → ops.is_nan y = false →
      exactlyOne (ops.lt x y) (ops.beq x y) (ops.lt y x) = true)
    (hGt : ∀ x y, ops.gt x y = ops.lt y x)
    (hTrans : ∀ x y z, ops.lt x y = true → ops.lt y z = true → ops.lt x z = true)
    (hTot : ∀ x y, ops.is_nan x = false → ops.is_nan y = false → ops.cmpOpt x y ≠ none)
    (a b c : NoisyFloat F)
    (ha : C.check a.value = true) (hb : C.check b.value = true)
    (hc : C.check c.value = true) :
    exactlyOne (NoisyFloat.lt ops a b) (NoisyFloat.eq ops a b) (NoisyFloat.gt ops a b) = true
    ∧ (NoisyFloat.lt ops a b = true → NoisyFloat.lt ops b c = true →
        NoisyFloat.lt ops a c = true)
    ∧ (NoisyFloat.lt ops a b = true → NoisyFloat.cmp ops a b = Ordering.lt)
    ∧ (NoisyFloat.eq ops a b = true → NoisyFloat.cmp ops a b = Ordering.eq)
    ∧ (NoisyFloat.lt ops a b = false → NoisyFloat.eq ops a b = false →
        NoisyFloat.cmp ops a b = Ordering.gt)
    ∧ NoisyFloat.cmpOpt ops a b ≠ none := by
  have hna := hNan a.value ha
  have hnb := hNan b.value hb
  have htri := hTri a.value b.value hna hnb
  refine ⟨?_, ?_, ?_, ?_, ?_, ?_⟩
  · unfold NoisyFloat.lt NoisyFloat.eq NoisyFloat.gt
    rw [hGt]
    exact htri
  · intro h1 h2
    exact hTrans a.value b.value c.value h1 h2
  · intro h1
    unfold NoisyFloat.lt at h1
    unfold NoisyFloat.cmp
    rw [h1]
    rfl
  · intro h1
    unfold NoisyFloat.eq at h1
    unfold NoisyFloat.cmp
    cases hlt : ops.lt a.value b.value
    · rw [h1]
      rfl
    · exfalso
      rw [hlt, h1] at htri
      simp [exactlyOne] at htri
  · intro h1 h2
    unfold NoisyFloat.lt at h1
    unfold NoisyFloat.eq at h2
    unfold NoisyFloat.cmp
    rw [h1, h2]
    rfl
  · unfold NoisyFloat.cmpOpt
    exact hTot a.value b.value hna hnb

/-- C5 witness: the total order statement instantiated on the model at
minus-one, zero and one under the strict NaN-rejecting policy. -/
theorem checked_total_order_witness :
    exactlyOne (NoisyFloat.lt miniOps (NoisyFloat.unchecked_new MiniF.neg) (NoisyFloat.unchecked_new MiniF.zero))
      (NoisyFloat.eq miniOps (NoisyFloat.unchecked_new MiniF.neg) (NoisyFloat.unchecked_new MiniF.zero))
      (NoisyFloat.gt miniOps (NoisyFloat.unchecked_new MiniF.neg) (NoisyFloat.unchecked_new MiniF.zero)) = true :=
  (checked_total_order miniOps strictN (by decide) (by decide) (by decide) (by decide)
    (by decide) (NoisyFloat.unchecked_new MiniF.neg) (NoisyFloat.unchecked_new MiniF.zero)
    (NoisyFloat.unchecked_new MiniF.one) (by decide) (by decide) (by decide)).1

/-- C6: the is_nan query is the constant false on every wrapper value,
and the nan() constant panics unconditionally, for every policy and
every underlying float type. -/
theorem nan_overrides_spec {F : Type} (C : FloatChecker F) (x : NoisyFloat F) :
    NoisyFloat.is_nan x = false ∧ NoisyFloat.nan C = none :=
  ⟨rfl, rfl⟩

/-- C7: every value-producing float-capability operation computes the
raw operation of the underlying float on the operand raw values and
re-validates the result through the halting constructor new, while the
pure classification and query operations delegate directly to the raw
value with no re-validation. -/
theorem float_surface_forwarding {F : Type} (ops : FloatOps F) (C : FloatChecker F)
    (x y z : NoisyFloat F) (n : Int) :
    NoisyFloat.floor ops C x = NoisyFloat.new C (ops.floor x.value)
    ∧ NoisyFloat.ceil ops C x = NoisyFloat.new C (ops.ceil x.value)
    ∧ NoisyFloat.round ops C x = NoisyFloat.new C (ops.round x.value)
    ∧ NoisyFloat.trunc ops C x = NoisyFloat.new C (ops.trunc x.value)
    ∧ NoisyFloat.fract ops C x = NoisyFloat.new C (ops.fract x.value)
    ∧ NoisyFloat.abs ops C x = NoisyFloat.new C (ops.abs x.value)
    ∧ NoisyFloat.signum ops C x = NoisyFloat.new C (ops.signum x.value)
    ∧ NoisyFloat.mul_add ops C x y z = NoisyFloat.new C (ops.mul_add x.value y.value z.value)
    ∧ NoisyFloat.recip ops C x = NoisyFloat.new C (ops.recip x.value)
    ∧ NoisyFloat.powi ops C x n = NoisyFloat.new C (ops.powi x.value n)
    ∧ NoisyFloat.powf ops C x y = NoisyFloat.new C (ops.powf x.value y.value)
    ∧ NoisyFloat.sqrt ops C x = NoisyFloat.new C (ops.sqrt x.value)
    ∧ NoisyFloat.cbrt ops C x = NoisyFloat.new C (ops.cbrt x.value)
    ∧ NoisyFloat.exp ops C x = NoisyFloat.new C (ops.exp x.value)
    ∧ NoisyFloat.exp2 ops C x = NoisyFloat.new C (ops.exp2 x.value)
    ∧ NoisyFloat.exp_m1 ops C x = NoisyFloat.new C (ops.exp_m1 x.value)
    ∧ NoisyFloat.ln ops C x = NoisyFloat.new C (ops.ln x.value)
    ∧ NoisyFloat.log ops C x y = NoisyFloat.new C (ops.log x.value y.value)
    ∧ NoisyFloat.log2 ops C x = NoisyFloat.new C (ops.log2 x.value)
    ∧ NoisyFloat.log10 ops C x = NoisyFloat.new C (ops.log10 x.value)
    ∧ NoisyFloat.ln_1p ops C x = NoisyFloat.new C (ops.ln_1p x.value)
    ∧ NoisyFloat.sin ops C x = NoisyFloat.new C (ops.sin x.value)
    ∧ NoisyFloat.cos ops C x = NoisyFloat.new C (ops.cos x.value)
    ∧ NoisyFloat.tan ops C x = NoisyFloat.new C (ops.tan x.value)
    ∧ NoisyFloat.asin ops C x = NoisyFloat.new C (ops.asin x.value)
    ∧ NoisyFloat.acos ops C x = NoisyFloat.new C (ops.acos x.value)
    ∧ NoisyFloat.atan ops C x = NoisyFloat.new C (ops.atan x.value)
    ∧ NoisyFloat.atan2 ops C x y = NoisyFloat.new C (ops.atan2 x.value y.value)
    ∧ NoisyFloat.sin_cos ops C x
        = (NoisyFloat.new C (ops.sin_cos x.value).1).bind (fun a =>
            (NoisyFloat.new C (ops.sin_cos x.value).2).map (fun b => (a, b)))
    ∧ NoisyFloat.sinh ops C x = NoisyFloat.new C (ops.sinh x.value)
    ∧ NoisyFloat.cosh ops C x = NoisyFloat.new C (ops.cosh x.value)
    ∧ NoisyFloat.tanh ops C x = NoisyFloat.new C (ops.tanh x.value)
    ∧ NoisyFloat.asinh ops C x = NoisyFloat.new C (ops.asinh x.value)
    ∧ NoisyFloat.acosh ops C x = NoisyFloat.new C (ops.acosh x.value)
    ∧ NoisyFloat.atanh ops C x = NoisyFloat.new C (ops.atanh x.value)
    ∧ NoisyFloat.min ops C x y = NoisyFloat.new C (ops.min x.value y.value)
    ∧ NoisyFloat.max ops C x y = NoisyFloat.new C (ops.max x.value y.value)
    ∧ NoisyFloat.abs_sub ops C x y = NoisyFloat.new C (ops.abs_sub x.value y.value)
    ∧ NoisyFloat.hypot ops C x y = NoisyFloat.new C (ops.hypot x.value y.value)
    ∧ NoisyFloat.to_degrees ops C x = NoisyFloat.new C (ops.to_degrees x.value)
    ∧ NoisyFloat.to_radians ops C x = NoisyFloat.new C (ops.to_radians x.value)
    ∧ NoisyFloat.is_infinite ops x = ops.is_infinite x.value
    ∧ NoisyFloat.is_finite ops x = ops.is_finite x.value
    ∧ NoisyFloat.is_normal ops x = ops.is_normal x.value
    ∧ NoisyFloat.classify ops x = ops.classify x.value
    ∧ NoisyFloat.is_sign_positive ops x = ops.is_sign_positive x.value
    ∧ NoisyFloat.is_sign_negative ops x = ops.is_sign_negative x.value
    ∧ NoisyFloat.integer_decode ops x = ops.integer_decode x.value :=
  ⟨rfl, rfl, rfl, rfl, rfl, rfl, rfl, rfl, rfl, rfl, rfl, rfl, rfl, rfl, rfl, rfl,
    rfl, rfl, rfl, rfl, rfl, rfl, rfl, rfl, rfl, rfl, rfl, rfl, rfl, rfl, rfl, rfl,
    rfl, rfl, rfl, rfl, rfl, rfl, rfl, rfl, rfl, rfl, rfl, rfl, rfl, rfl, rfl, rfl⟩

/-- C8: each compound assignment sets the held raw value to the raw
operation applied to the two raw values and then runs C::assert (not the
full constructor) on the new state: it panics exactly when that assert
panics, and any normal return holds exactly the raw result. -/
theorem assign_ops_spec {F : Type} (ops : FloatOps F) (C : FloatChecker F)
    (a b : NoisyFloat F) :
    ((NoisyFloat.add_assign ops C a b = none ↔ C.assert (ops.add a.value b.value) = none)
      ∧ (∀ x, NoisyFloat.add_assign ops C a b = some x → x.value = ops.add a.value b.value))
    ∧ ((NoisyFloat.sub_assign ops C a b = none ↔ C.assert (ops.sub a.value b.value) = none)
      ∧ (∀ x, NoisyFloat.sub_assign ops C a b = some x → x.value = ops.sub a.value b.value))
    ∧ ((NoisyFloat.mul_assign ops C a b = none ↔ C.assert (ops.mul a.value b.value) = none)
      ∧ (∀ x, NoisyFloat.mul_assign ops C a b = some x → x.value = ops.mul a.value b.value))
    ∧ ((NoisyFloat.div_assign ops C a b = none ↔ C.assert (ops.div a.value b.value) = none)
      ∧ (∀ x, NoisyFloat.div_assign ops C a b = some x → x.value = ops.div a.value b.value))
    ∧ ((NoisyFloat.rem_assign ops C a b = none ↔ C.assert (ops.rem a.value b.value) = none)
      ∧ (∀ x, NoisyFloat.rem_assign ops C a b = some x → x.value = ops.rem a.value b.value)) :=
  ⟨⟨assign_none_iff (ops.add a.value b.value), fun _ h => assign_value_of_some h⟩,
    ⟨assign_none_iff (ops.sub a.value b.value), fun _ h => assign_value_of_some h⟩,
    ⟨assign_none_iff (ops.mul a.value b.value), fun _ h => assign_value_of_some h⟩,
    ⟨assign_none_iff (ops.div a.value b.value), fun _ h => assign_value_of_some h⟩,
    ⟨assign_none_iff (ops.rem a.value b.value), fun _ h => assign_value_of_some h⟩⟩

/-- C8 witness: a normal add-assign of one and one on the model holds
exactly the raw sum. -/
theorem assign_ops_spec_witness :
    (NoisyFloat.unchecked_new MiniF.inf : NoisyFloat MiniF).value
      = miniOps.add MiniF.one MiniF.one :=
  (assign_ops_spec miniOps strictN (NoisyFloat.unchecked_new MiniF.one)
      (NoisyFloat.unchecked_new MiniF.one)).1.2 (NoisyFloat.unchecked_new MiniF.inf) (by decide)

/-- C9: zero() and one() construct through the unchecked internal
constructor: their results hold exactly the raw zero and one values of
the underlying float, no predicate or assert is involved (they return
plain values, never panicking), and even for a policy with a compiled-in
assertion whose predicate rejects zero or one, where the checked
constructor new would panic on the same raw values, they still return
those raw values. -/
theorem zero_one_unchecked {F : Type} (ops : FloatOps F) :
    NoisyFloat.zero ops = NoisyFloat.unchecked_new ops.zero
    ∧ (NoisyFloat.zero ops).value = ops.zero
    ∧ NoisyFloat.one ops = NoisyFloat.unchecked_new ops.one
    ∧ (NoisyFloat.one ops).value = ops.one
    ∧ (∀ C : FloatChecker F, C.assertActive = true → C.check ops.zero = false →
        NoisyFloat.new C ops.zero = none)
    ∧ (∀ C : FloatChecker F, C.assertActive = true → C.check ops.one = false →
        NoisyFloat.new C ops.one = none) :=
  ⟨rfl, rfl, rfl, rfl,
    fun _ hA hcv => new_eq_none hA hcv,
    fun _ hA hcv => new_eq_none hA hcv⟩

/-- C9 witness: posC rejects zero and its assertion is compiled in, so
the checked constructor panics on the raw zero value while zero() holds
that value. -/
theorem zero_one_unchecked_witness :
    NoisyFloat.new posC MiniF.zero = none :=
  (zero_one_unchecked miniOps).2.2.2.2.1 posC rfl (by decide)

/-- C10: clone returns a wrapper holding the identical raw value, and
because it goes through the unchecked constructor and takes no checker,
it is the identity on the held state, matching copy semantics, with no
predicate, no assert and no panic path involved. -/
theorem clone_identity {F : Type} (x : NoisyFloat F) :
    NoisyFloat.clone x = x ∧ (NoisyFloat.clone x).value = x.value :=
  ⟨rfl, rfl⟩

end NoisyFloatSpec
